import Mathlib

/-
Shallow embedding of packages/worker/src/utilities/email.js.

The file under verification orchestrates external collaborators: the
template store (getTemplateByPurpose), the settings-context builder
(getSettingsTemplateContext), the substitution engine (processString),
the scoped config store (determineScopedConfig), the one-time-code issuer
(getResetPasswordCode, getInviteCode) and the nodemailer transport.
Those collaborators live outside the file; they are modelled as oracle
fields of an `Env` record, so every theorem quantifies over all possible
collaborator behaviours.

Asynchrony is modelled with an explicit trace: each function returns its
result paired with a `Trace = List (List Op)`, where one inner list is a
batch of operations issued concurrently (a `Promise.all` in the source is
one batch; a plain `await` is a singleton batch).  JS `throw` becomes
`Except.error`; a JS member access on a possibly-null value becomes an
explicit match whose null branch is a type error.
-/

namespace EmailJs

/-- Modelled from the spec: the closed purpose enum `EmailTemplatePurpose`
(defined in the constants module, which is outside the provided sources).
INVITATION, PASSWORD_RECOVERY and WELCOME are the full-email purposes;
BASE and STYLES are structural fragments. -/
inductive Purpose
  | base
  | styles
  | invitation
  | passwordRecovery
  | welcome
deriving DecidableEq, Repr

/-- Modelled from the spec: string form of a purpose, used when the source
interpolates the purpose into a thrown message. -/
def purposeName : Purpose → String
  | Purpose.base => "base"
  | Purpose.styles => "styles"
  | Purpose.invitation => "invitation"
  | Purpose.passwordRecovery => "password_recovery"
  | Purpose.welcome => "welcome"

/-- Modelled from the spec: the template-category enum; this pipeline fixes
it to the email category (`TYPE = TemplateTypes.EMAIL`). -/
inductive TemplateType
  | email
deriving DecidableEq, Repr

/-- A resolved template fragment: a record with a textual contents field. -/
structure Template where
  contents : String
deriving DecidableEq, Repr

/-- A user record as consumed here: the source only reads its `_id` field. -/
structure User where
  _id : String
deriving DecidableEq, Repr

/-- A value stored in a substitution context: a string, or a plain object
(the user object is the only object stored). -/
inductive CtxVal
  | str (s : String)
  | obj (fields : List (String × String))
deriving DecidableEq, Repr

/-- A substitution context: a flat mapping built by JS object spread,
modelled as an association list in which later entries override. -/
abbrev Context := List (String × CtxVal)

/-- `user: user || {}` in the source: the user object, or an empty object
when no user was supplied. -/
def userCtxVal : Option User → CtxVal
  | some u => CtxVal.obj [("_id", u._id)]
  | none => CtxVal.obj []

/-- Opaque authentication credentials forwarded to the transport. -/
structure Auth where
  user : String
  pass : String
deriving DecidableEq, Repr

/-- An SMTP configuration document as read from the config store. -/
structure SMTPConfig where
  port : Nat
  host : String
  secure : Option Bool
  auth : Option Auth
  selfSigned : Bool
  «from» : Option String
  subject : Option String
deriving DecidableEq, Repr

/-- The tls sub-option of nodemailer connection options. -/
structure TlsOpts where
  rejectUnauthorized : Bool
deriving DecidableEq, Repr

/-- Nodemailer connection options; a constructed transport session is
identified by the options it was built from. The `tls` field is an option
of this single instance, never a process-global setting. -/
structure TransportOptions where
  port : Nat
  host : String
  secure : Bool
  auth : Option Auth
  tls : Option TlsOpts
deriving DecidableEq, Repr

/-- `createSMTPTransport(config)` from the source: builds the connection
options (secure defaults to false) and, only when `config.selfSigned` is
set, adds `tls: { rejectUnauthorized: false }` to this instance. -/
def createSMTPTransport (config : SMTPConfig) : TransportOptions :=
  { port := config.port
    host := config.host
    secure := config.secure.getD false
    auth := config.auth
    tls := if config.selfSigned then some { rejectUnauthorized := false } else none }

/-- The message handed to `transport.sendMail`. -/
structure Message where
  «from» : Option String
  subject : Option String
  «to» : String
  html : String
deriving DecidableEq, Repr

/-- The config-type enum; only SMTP is used here. -/
inductive ConfigType
  | smtp
deriving DecidableEq, Repr

/-- Query parameters sent to `determineScopedConfig`. -/
structure ConfigParams where
  type : ConfigType
  group : Option String
deriving DecidableEq, Repr

/-- Errors: a thrown string (the source throws string literals), or a JS
type error from dereferencing a null value. -/
inductive Err
  | thrown (msg : String)
  | typeError (msg : String)
deriving DecidableEq, Repr

/-- One externally visible operation issued by the pipeline. -/
inductive Op
  | templateLookup (ttype : TemplateType) (purpose : Purpose)
  | resetCodeLookup (userId : String)
  | inviteCodeLookup (email : String)
  | settingsLookup (purpose : Purpose) (code : Option String)
  | render (template : String) (ctx : Context)
  | configLookup (params : ConfigParams)
  | transportConstruct (opts : TransportOptions)
  | sendMailOp (opts : TransportOptions) (msg : Message)
  | verifyOp (opts : TransportOptions)
deriving DecidableEq, Repr

/-- A trace of issued operations; each inner list is a batch issued
concurrently, and batches are ordered by issue time. -/
abbrev Trace := List (List Op)

/-- The external collaborators of email.js, as oracles.  `processString`
and the two code issuers are total string functions; the template and
config stores may report absence. -/
structure Env where
  getTemplateByPurpose : TemplateType → Purpose → Option Template
  getResetPasswordCode : String → String
  getInviteCode : String → String
  getSettingsTemplateContext : Purpose → Option String → Context
  processString : String → Context → String
  determineScopedConfig : ConfigParams → Option SMTPConfig
  sendMail : TransportOptions → Message → Except Err String
  verify : TransportOptions → Except Err Unit

/-- `FULL_EMAIL_PURPOSES` from the source. -/
def FULL_EMAIL_PURPOSES : List Purpose :=
  [Purpose.invitation, Purpose.passwordRecovery, Purpose.welcome]

/-- `getLinkCode(purpose, email, user)` from the source: a switch on
purpose.  PASSWORD_RECOVERY reads `user._id` with no null guard, so a
missing user is a type error; INVITATION uses the email address; every
other purpose returns null without contacting the code issuer. -/
def getLinkCode (env : Env) (purpose : Purpose) (email : String)
    (user : Option User) : Except Err (Option String) × Trace :=
  match purpose with
  | Purpose.passwordRecovery =>
    match user with
    | none => (Except.error (Err.typeError "cannot read _id of null"), [])
    | some u =>
      (Except.ok (some (env.getResetPasswordCode u._id)), [[Op.resetCodeLookup u._id]])
  | Purpose.invitation =>
    (Except.ok (some (env.getInviteCode email)), [[Op.inviteCodeLookup email]])
  | _ => (Except.ok none, [])

/-- `buildEmail(purpose, email, user)` from the source: guard on the full
purpose set, a `Promise.all` of the three template lookups (one batch),
the missing-components check, then the awaited link code, the settings
context, and the three sequential renders body, styles, base. -/
def buildEmail (env : Env) (purpose : Purpose) (email : String)
    (user : Option User) : Except Err String × Trace :=
  if FULL_EMAIL_PURPOSES.contains purpose = false then
    (Except.error (Err.thrown ("Unable to build an email of type " ++ purposeName purpose)), [])
  else
    let tplStep : List Op :=
      [Op.templateLookup TemplateType.email Purpose.base,
       Op.templateLookup TemplateType.email Purpose.styles,
       Op.templateLookup TemplateType.email purpose]
    match env.getTemplateByPurpose TemplateType.email Purpose.base,
          env.getTemplateByPurpose TemplateType.email Purpose.styles,
          env.getTemplateByPurpose TemplateType.email purpose with
    | some baseT, some stylesT, some bodyT =>
      let codeStep := getLinkCode env purpose email user
      (match codeStep.1 with
       | Except.error e => (Except.error e, tplStep :: codeStep.2)
       | Except.ok code =>
         let context : Context :=
           env.getSettingsTemplateContext purpose code ++
             [("email", CtxVal.str email), ("user", userCtxVal user)]
         let bodyOut := env.processString bodyT.contents context
         let stylesOut := env.processString stylesT.contents context
         let finalCtx : Context :=
           context ++ [("styles", CtxVal.str stylesOut), ("body", CtxVal.str bodyOut)]
         (Except.ok (env.processString baseT.contents finalCtx),
           tplStep :: codeStep.2 ++
             [[Op.settingsLookup purpose code],
              [Op.render bodyT.contents context],
              [Op.render stylesT.contents context],
              [Op.render baseT.contents finalCtx]]))
    | _, _, _ =>
      (Except.error (Err.thrown "Unable to build email, missing base components"), [tplStep])

/-- The query parameters built by `getSmtpConfiguration`: type SMTP, and a
group filter only when groupId is truthy (a JS empty string is falsy). -/
def smtpParams (groupId : Option String) : ConfigParams :=
  { type := ConfigType.smtp
    group := match groupId with
      | some g => if g.isEmpty then none else some g
      | none => none }

/-- `getSmtpConfiguration(db, groupId)` from the source: forwards the query
to the config store and returns its single best match or absence. -/
def getSmtpConfiguration (env : Env) (groupId : Option String) : Option SMTPConfig :=
  env.determineScopedConfig (smtpParams groupId)

/-- `isEmailConfigured(groupId)` from the source: looks up the scoped SMTP
configuration and returns `config != null`.  The body contains no throw,
so in the embedding it is a total Bool-valued function. -/
def isEmailConfigured (env : Env) (groupId : Option String) : Bool :=
  (getSmtpConfiguration env groupId).isSome

/-- `sendEmail(email, purpose, {groupId, user})` from the source: resolve
the configuration (throw if absent), construct the transport, compose the
email, then submit one message built from the configuration. -/
def sendEmail (env : Env) (email : String) (purpose : Purpose)
    (groupId : Option String) (user : Option User) : Except Err String × Trace :=
  match getSmtpConfiguration env groupId with
  | none =>
    (Except.error (Err.thrown "Unable to find SMTP configuration."),
      [[Op.configLookup (smtpParams groupId)]])
  | some config =>
    let transport := createSMTPTransport config
    let built := buildEmail env purpose email user
    (match built.1 with
     | Except.error e =>
       (Except.error e,
         [Op.configLookup (smtpParams groupId)] ::
           [Op.transportConstruct transport] :: built.2)
     | Except.ok html =>
       let message : Message :=
         { «from» := config.«from», subject := config.subject, «to» := email, html := html }
       (env.sendMail transport message,
         [Op.configLookup (smtpParams groupId)] ::
           [Op.transportConstruct transport] ::
             (built.2 ++ [[Op.sendMailOp transport message]])))

/-- `verifyConfig(config)` from the source: construct a transport from the
configuration exactly as `sendEmail` does, then call verify on it. -/
def verifyConfig (env : Env) (config : SMTPConfig) : Except Err Unit × Trace :=
  let transport := createSMTPTransport config
  (env.verify transport, [[Op.transportConstruct transport], [Op.verifyOp transport]])

/-- True of template-store lookups. -/
def isTemplateLookup : Op → Bool
  | Op.templateLookup _ _ => true
  | _ => false

/-- True of link-code lookups (reset or invite). -/
def isCodeLookup : Op → Bool
  | Op.resetCodeLookup _ => true
  | Op.inviteCodeLookup _ => true
  | _ => false

/-- True of substitution-engine invocations. -/
def isRender : Op → Bool
  | Op.render _ _ => true
  | _ => false

/-- True of transport-session constructions. -/
def isTransportConstruct : Op → Bool
  | Op.transportConstruct _ => true
  | _ => false

/-- True of message submissions. -/
def isSendMail : Op → Bool
  | Op.sendMailOp _ _ => true
  | _ => false

/-- Some batch of the trace issues an operation satisfying p. -/
def traceHas (t : Trace) (p : Op → Bool) : Bool :=
  t.any (fun s => s.any p)

/-- No batch of the trace issues both a template lookup and a code lookup:
the two kinds are never in flight concurrently. -/
def noBatchMixesLookups (t : Trace) : Bool :=
  t.all (fun s => !(s.any isTemplateLookup && s.any isCodeLookup))


/-- The one concurrent batch of the three template-store lookups issued
by buildEmail for a full purpose. -/
def tplBatch (purpose : Purpose) : List Op :=
  [Op.templateLookup TemplateType.email Purpose.base,
   Op.templateLookup TemplateType.email Purpose.styles,
   Op.templateLookup TemplateType.email purpose]

/-- The substitution context built by buildEmail before any rendering:
settings context seeded with the link code, then the recipient email and
the user object. -/
def emailContext (env : Env) (purpose : Purpose) (email : String)
    (user : Option User) (code : Option String) : Context :=
  env.getSettingsTemplateContext purpose code ++
    [("email", CtxVal.str email), ("user", userCtxVal user)]

/-- A concrete collaborator environment used for witnesses: every template
present with contents "T", reset code "R", invite code "I", empty settings
context, identity substitution engine, no stored SMTP configuration. -/
def envAll : Env :=
  { getTemplateByPurpose := fun _ _ => some ⟨"T"⟩
    getResetPasswordCode := fun _ => "R"
    getInviteCode := fun _ => "I"
    getSettingsTemplateContext := fun _ _ => []
    processString := fun t _ => t
    determineScopedConfig := fun _ => none
    sendMail := fun _ _ => Except.ok "sent"
    verify := fun _ => Except.ok () }

/-- Like envAll, but the base template fragment is absent. -/
def envNoBase : Env :=
  { envAll with
    getTemplateByPurpose := fun _ p => if p = Purpose.base then none else some ⟨"T"⟩ }

/-- A stored SMTP configuration with a self-signed certificate allowance. -/
def cfgA : SMTPConfig :=
  { port := 587
    host := "smtp.example.com"
    secure := none
    auth := none
    selfSigned := true
    «from» := some "noreply@example.com"
    subject := some "hello" }

/-- Like envAll, but the config store resolves cfgA for every query. -/
def envCfg : Env :=
  { envAll with determineScopedConfig := fun _ => some cfgA }

/-- C2: isEmailConfigured(scope) is true exactly when the config store
resolves a non-absent SMTP configuration for that scope; the function is
total (Bool-valued), so no absence can surface as a thrown failure. -/
theorem isEmailConfigured_iff_config_present (env : Env) (groupId : Option String) :
    isEmailConfigured env groupId = true ↔ getSmtpConfiguration env groupId ≠ none := by
  simp [isEmailConfigured, Option.isSome_iff_ne_none]

/-- C4: for a purpose outside the full-email set, buildEmail fails at once
with the unsupported-purpose message and its trace is empty: no template
lookup, link-code lookup or any other external call is issued. -/
theorem buildEmail_unsupported_purpose (env : Env) (purpose : Purpose)
    (email : String) (user : Option User)
    (h : purpose ∉ FULL_EMAIL_PURPOSES) :
    buildEmail env purpose email user =
      (Except.error (Err.thrown ("Unable to build an email of type " ++ purposeName purpose)),
        []) := by
  have hc : FULL_EMAIL_PURPOSES.contains purpose = false := by
    simpa using h
  unfold buildEmail
  rw [hc]
  rfl

/-- Witness for C4 at the structural purpose BASE and the concrete
environment envAll. -/
theorem buildEmail_unsupported_purpose_witness :
    Purpose.base ∉ FULL_EMAIL_PURPOSES ∧
      buildEmail envAll Purpose.base "a@b" none =
        (Except.error (Err.thrown ("Unable to build an email of type " ++
          purposeName Purpose.base)), []) :=
  ⟨by decide, buildEmail_unsupported_purpose envAll Purpose.base "a@b" none (by decide)⟩

/-- C3: for a full purpose, if any of the three template fragments is
absent, buildEmail fails with the missing-base-components message, its
trace is exactly the one batch of three template lookups, and in
particular the substitution engine is never invoked. -/
theorem buildEmail_missing_components (env : Env) (purpose : Purpose)
    (email : String) (user : Option User)
    (hfull : purpose ∈ FULL_EMAIL_PURPOSES)
    (habsent : env.getTemplateByPurpose TemplateType.email Purpose.base = none ∨
      env.getTemplateByPurpose TemplateType.email Purpose.styles = none ∨
      env.getTemplateByPurpose TemplateType.email purpose = none) :
    buildEmail env purpose email user =
      (Except.error (Err.thrown "Unable to build email, missing base components"),
        [[Op.templateLookup TemplateType.email Purpose.base,
          Op.templateLookup TemplateType.email Purpose.styles,
          Op.templateLookup TemplateType.email purpose]]) ∧
    traceHas (buildEmail env purpose email user).2 isRender = false := by
  have hc : FULL_EMAIL_PURPOSES.contains purpose = true := by
    simpa using hfull
  rcases hb : env.getTemplateByPurpose TemplateType.email Purpose.base with _ | bt <;>
    rcases hs : env.getTemplateByPurpose TemplateType.email Purpose.styles with _ | st <;>
      rcases hd : env.getTemplateByPurpose TemplateType.email purpose with _ | dt <;>
        simp_all [buildEmail, traceHas, isRender]

/-- Witness for C3: base template absent, purpose WELCOME. -/
theorem buildEmail_missing_components_witness :
    (Purpose.welcome ∈ FULL_EMAIL_PURPOSES ∧
      envNoBase.getTemplateByPurpose TemplateType.email Purpose.base = none) ∧
    (buildEmail envNoBase Purpose.welcome "a@b" none =
      (Except.error (Err.thrown "Unable to build email, missing base components"),
        [[Op.templateLookup TemplateType.email Purpose.base,
          Op.templateLookup TemplateType.email Purpose.styles,
          Op.templateLookup TemplateType.email Purpose.welcome]]) ∧
      traceHas (buildEmail envNoBase Purpose.welcome "a@b" none).2 isRender = false) :=
  ⟨⟨by decide, rfl⟩,
    buildEmail_missing_components envNoBase Purpose.welcome "a@b" none (by decide) (Or.inl rfl)⟩

/-- C6: getLinkCode is a pure dispatch on purpose: PASSWORD_RECOVERY asks
the issuer for a reset code keyed by the user identity (not the email),
INVITATION asks for an invite code keyed by the email address, and every
other purpose yields null with an empty trace (no issuer call). -/
theorem getLinkCode_dispatch (env : Env) (email : String) (u : User)
    (user : Option User) (purpose : Purpose) :
    getLinkCode env Purpose.passwordRecovery email (some u) =
      (Except.ok (some (env.getResetPasswordCode u._id)), [[Op.resetCodeLookup u._id]]) ∧
    getLinkCode env Purpose.invitation email user =
      (Except.ok (some (env.getInviteCode email)), [[Op.inviteCodeLookup email]]) ∧
    (purpose ≠ Purpose.passwordRecovery → purpose ≠ Purpose.invitation →
      getLinkCode env purpose email user = (Except.ok none, [])) := by
  refine ⟨rfl, rfl, ?_⟩
  intro h1 h2
  cases purpose <;> simp_all [getLinkCode]

/-- Witness for C6: the dispatch evaluated in envAll; the third branch is
discharged at the purpose WELCOME. -/
theorem getLinkCode_dispatch_witness :
    Purpose.welcome ≠ Purpose.passwordRecovery ∧
    Purpose.welcome ≠ Purpose.invitation ∧
    getLinkCode envAll Purpose.welcome "a@b" none = (Except.ok none, []) :=
  ⟨by decide, by decide,
    (getLinkCode_dispatch envAll "a@b" ⟨"u1"⟩ none Purpose.welcome).2.2
      (by decide) (by decide)⟩

/-- C7: when PASSWORD_RECOVERY is requested with no user record, the
unguarded read of the user identity fails: getLinkCode hits the
null-dereference error branch before contacting the code issuer. -/
theorem getLinkCode_null_user (env : Env) (email : String) :
    getLinkCode env Purpose.passwordRecovery email none =
      (Except.error (Err.typeError "cannot read _id of null"), []) := rfl

/-- C8: when the config store resolves no SMTP configuration for the
scope, sendEmail fails with the configuration-not-found message, its trace
is the single config lookup, and in particular no transport session is
constructed and no message is submitted. -/
theorem sendEmail_no_config (env : Env) (email : String) (purpose : Purpose)
    (groupId : Option String) (user : Option User)
    (h : getSmtpConfiguration env groupId = none) :
    sendEmail env email purpose groupId user =
      (Except.error (Err.thrown "Unable to find SMTP configuration."),
        [[Op.configLookup (smtpParams groupId)]]) ∧
    traceHas (sendEmail env email purpose groupId user).2 isTransportConstruct = false ∧
    traceHas (sendEmail env email purpose groupId user).2 isSendMail = false := by
  simp [sendEmail, h, traceHas, isTransportConstruct, isSendMail]

/-- Witness for C8: envAll stores no configuration. -/
theorem sendEmail_no_config_witness :
    getSmtpConfiguration envAll none = none ∧
    (sendEmail envAll "a@b" Purpose.welcome none none =
      (Except.error (Err.thrown "Unable to find SMTP configuration."),
        [[Op.configLookup (smtpParams none)]]) ∧
    traceHas (sendEmail envAll "a@b" Purpose.welcome none none).2 isTransportConstruct = false ∧
    traceHas (sendEmail envAll "a@b" Purpose.welcome none none).2 isSendMail = false) :=
  ⟨rfl, sendEmail_no_config envAll "a@b" Purpose.welcome none none rfl⟩


/-- C1 counterexample: at a concrete input the trace of buildEmail issues
both template lookups and a link-code lookup, yet no batch contains both
kinds — the link-code resolution is not issued concurrently with the
template-set resolution. -/
theorem buildEmail_code_lookup_not_concurrent :
    traceHas (buildEmail envAll Purpose.invitation "a@b" none).2 isTemplateLookup = true ∧
    traceHas (buildEmail envAll Purpose.invitation "a@b" none).2 isCodeLookup = true ∧
    noBatchMixesLookups (buildEmail envAll Purpose.invitation "a@b" none).2 = true := by
  decide

/-- C1 amended: for every full purpose, buildEmail issues the three
template lookups as its first concurrent batch; no batch mixes template
and link-code lookups; template lookups occur only in that first batch;
and link-code lookups occur, if at all, only in the batch immediately
after it — so the link code is resolved strictly after the template set
settles, and both precede context building and rendering. -/
theorem buildEmail_lookup_ordering (env : Env) (purpose : Purpose)
    (email : String) (user : Option User)
    (h : purpose ∈ FULL_EMAIL_PURPOSES) :
    (buildEmail env purpose email user).2.head? = some (tplBatch purpose) ∧
    noBatchMixesLookups (buildEmail env purpose email user).2 = true ∧
    (buildEmail env purpose email user).2.tail.all
      (fun s => s.all (fun op => !isTemplateLookup op)) = true ∧
    ((buildEmail env purpose email user).2.drop 2).all
      (fun s => s.all (fun op => !isCodeLookup op)) = true := by
  have hc : FULL_EMAIL_PURPOSES.contains purpose = true := by
    simpa using h
  rcases hb : env.getTemplateByPurpose TemplateType.email Purpose.base with _ | bt <;>
    rcases hs : env.getTemplateByPurpose TemplateType.email Purpose.styles with _ | st <;>
      rcases hd : env.getTemplateByPurpose TemplateType.email purpose with _ | dt <;>
        rcases purpose with _ | _ | _ | _ | _ <;>
          rcases user with _ | u <;>
            simp_all [buildEmail, getLinkCode, tplBatch, noBatchMixesLookups,
              isTemplateLookup, isCodeLookup, FULL_EMAIL_PURPOSES]

/-- Witness for the amended C1 at envAll and purpose INVITATION. -/
theorem buildEmail_lookup_ordering_witness :
    Purpose.invitation ∈ FULL_EMAIL_PURPOSES ∧
    ((buildEmail envAll Purpose.invitation "a@b" none).2.head? =
      some (tplBatch Purpose.invitation) ∧
    noBatchMixesLookups (buildEmail envAll Purpose.invitation "a@b" none).2 = true ∧
    (buildEmail envAll Purpose.invitation "a@b" none).2.tail.all
      (fun s => s.all (fun op => !isTemplateLookup op)) = true ∧
    ((buildEmail envAll Purpose.invitation "a@b" none).2.drop 2).all
      (fun s => s.all (fun op => !isCodeLookup op)) = true) :=
  ⟨by decide, buildEmail_lookup_ordering envAll Purpose.invitation "a@b" none (by decide)⟩


/-- C5: in a successful composition the renders happen in the order body,
styles, base; the body and styles renders both receive the pre-render
context (settings seeded with the code, the email and the user object,
with no styles or body entry appended); and the base render receives
exactly that context extended with the styles and body strings produced
by the two prior renders, unchanged. -/
theorem buildEmail_render_order (env : Env) (purpose : Purpose) (email : String)
    (user : Option User) (bt st dt : Template) (code : Option String) (ctrace : Trace)
    (hfull : purpose ∈ FULL_EMAIL_PURPOSES)
    (hb : env.getTemplateByPurpose TemplateType.email Purpose.base = some bt)
    (hs : env.getTemplateByPurpose TemplateType.email Purpose.styles = some st)
    (hd : env.getTemplateByPurpose TemplateType.email purpose = some dt)
    (hcode : getLinkCode env purpose email user = (Except.ok code, ctrace)) :
    buildEmail env purpose email user =
      (Except.ok (env.processString bt.contents
          (emailContext env purpose email user code ++
            [("styles", CtxVal.str (env.processString st.contents
                (emailContext env purpose email user code))),
             ("body", CtxVal.str (env.processString dt.contents
                (emailContext env purpose email user code)))])),
        tplBatch purpose :: ctrace ++
          [[Op.settingsLookup purpose code],
           [Op.render dt.contents (emailContext env purpose email user code)],
           [Op.render st.contents (emailContext env purpose email user code)],
           [Op.render bt.contents
             (emailContext env purpose email user code ++
               [("styles", CtxVal.str (env.processString st.contents
                   (emailContext env purpose email user code))),
                ("body", CtxVal.str (env.processString dt.contents
                   (emailContext env purpose email user code)))])]]) := by
  have hc : FULL_EMAIL_PURPOSES.contains purpose = true := by
    simpa using hfull
  unfold buildEmail
  rw [hc, hb, hs, hd, hcode]
  simp [emailContext, tplBatch]

/-- Witness for C5 at envAll and purpose INVITATION. -/
theorem buildEmail_render_order_witness :
    (Purpose.invitation ∈ FULL_EMAIL_PURPOSES ∧
      envAll.getTemplateByPurpose TemplateType.email Purpose.base = some ⟨"T"⟩ ∧
      getLinkCode envAll Purpose.invitation "a@b" none =
        (Except.ok (some "I"), [[Op.inviteCodeLookup "a@b"]])) ∧
    buildEmail envAll Purpose.invitation "a@b" none =
      (Except.ok (envAll.processString "T"
          (emailContext envAll Purpose.invitation "a@b" none (some "I") ++
            [("styles", CtxVal.str (envAll.processString "T"
                (emailContext envAll Purpose.invitation "a@b" none (some "I")))),
             ("body", CtxVal.str (envAll.processString "T"
                (emailContext envAll Purpose.invitation "a@b" none (some "I"))))])),
        tplBatch Purpose.invitation :: [[Op.inviteCodeLookup "a@b"]] ++
          [[Op.settingsLookup Purpose.invitation (some "I")],
           [Op.render "T" (emailContext envAll Purpose.invitation "a@b" none (some "I"))],
           [Op.render "T" (emailContext envAll Purpose.invitation "a@b" none (some "I"))],
           [Op.render "T"
             (emailContext envAll Purpose.invitation "a@b" none (some "I") ++
               [("styles", CtxVal.str (envAll.processString "T"
                   (emailContext envAll Purpose.invitation "a@b" none (some "I")))),
                ("body", CtxVal.str (envAll.processString "T"
                   (emailContext envAll Purpose.invitation "a@b" none (some "I"))))])]]) :=
  ⟨⟨by decide, rfl, rfl⟩,
    buildEmail_render_order envAll Purpose.invitation "a@b" none ⟨"T"⟩ ⟨"T"⟩ ⟨"T"⟩
      (some "I") [[Op.inviteCodeLookup "a@b"]] (by decide) rfl rfl rfl rfl⟩

/-- C9: verifyConfig constructs its transport by the very construction
sendEmail uses — createSMTPTransport — so for the same configuration both
produce identical connection options (host, port, secure flag, auth, tls
relaxation); and the selfSigned relaxation is only the tls field of that
single constructed instance. -/
theorem verifyConfig_same_transport_construction (env env2 : Env)
    (config : SMTPConfig) (email : String) (purpose : Purpose)
    (groupId : Option String) (user : Option User)
    (h : getSmtpConfiguration env2 groupId = some config) :
    (verifyConfig env config).2 =
      [[Op.transportConstruct (createSMTPTransport config)],
       [Op.verifyOp (createSMTPTransport config)]] ∧
    (sendEmail env2 email purpose groupId user).2.take 2 =
      [[Op.configLookup (smtpParams groupId)],
       [Op.transportConstruct (createSMTPTransport config)]] ∧
    (createSMTPTransport config).tls =
      (if config.selfSigned then some { rejectUnauthorized := false } else none) := by
  refine ⟨rfl, ?_, rfl⟩
  unfold sendEmail
  rw [h]
  rcases hbuilt : (buildEmail env2 purpose email user).1 with e | html <;>
    simp [hbuilt]

/-- Witness for C9 at envCfg, whose stored configuration cfgA has a
self-signed allowance. -/
theorem verifyConfig_same_transport_construction_witness :
    getSmtpConfiguration envCfg none = some cfgA ∧
    ((verifyConfig envAll cfgA).2 =
      [[Op.transportConstruct (createSMTPTransport cfgA)],
       [Op.verifyOp (createSMTPTransport cfgA)]] ∧
    (sendEmail envCfg "a@b" Purpose.welcome none none).2.take 2 =
      [[Op.configLookup (smtpParams none)],
       [Op.transportConstruct (createSMTPTransport cfgA)]] ∧
    (createSMTPTransport cfgA).tls =
      (if cfgA.selfSigned then some { rejectUnauthorized := false } else none)) :=
  ⟨rfl, verifyConfig_same_transport_construction envAll envCfg cfgA "a@b"
    Purpose.welcome none none rfl⟩

/-- C10: whenever a configuration is resolved, sendEmail constructs the
transport as its second step, before any composition activity; and if
composition fails, sendEmail propagates that failure with a trace in
which the transport construction already precedes the whole composition
trace. -/
theorem sendEmail_transport_before_composition (env : Env) (email : String)
    (purpose : Purpose) (groupId : Option String) (user : Option User)
    (config : SMTPConfig)
    (h : getSmtpConfiguration env groupId = some config) :
    (sendEmail env email purpose groupId user).2.take 2 =
      [[Op.configLookup (smtpParams groupId)],
       [Op.transportConstruct (createSMTPTransport config)]] ∧
    (∀ e : Err, (buildEmail env purpose email user).1 = Except.error e →
      sendEmail env email purpose groupId user =
        (Except.error e,
          [Op.configLookup (smtpParams groupId)] ::
            [Op.transportConstruct (createSMTPTransport config)] ::
              (buildEmail env purpose email user).2)) := by
  constructor
  · unfold sendEmail
    rw [h]
    rcases hbuilt : (buildEmail env purpose email user).1 with e | html <;>
      simp [hbuilt]
  · intro e he
    unfold sendEmail
    rw [h]
    simp [he]

/-- Witness for C10 at envCfg with the unsupported purpose BASE, whose
composition fails after the transport has been constructed. -/
theorem sendEmail_transport_before_composition_witness :
    (getSmtpConfiguration envCfg none = some cfgA ∧
      (buildEmail envCfg Purpose.base "a@b" none).1 =
        Except.error (Err.thrown ("Unable to build an email of type " ++
          purposeName Purpose.base))) ∧
    ((sendEmail envCfg "a@b" Purpose.base none none).2.take 2 =
      [[Op.configLookup (smtpParams none)],
       [Op.transportConstruct (createSMTPTransport cfgA)]] ∧
    sendEmail envCfg "a@b" Purpose.base none none =
      (Except.error (Err.thrown ("Unable to build an email of type " ++
          purposeName Purpose.base)),
        [Op.configLookup (smtpParams none)] ::
          [Op.transportConstruct (createSMTPTransport cfgA)] ::
            (buildEmail envCfg Purpose.base "a@b" none).2)) :=
  ⟨⟨rfl, rfl⟩,
    ⟨(sendEmail_transport_before_composition envCfg "a@b" Purpose.base none none cfgA rfl).1,
     (sendEmail_transport_before_composition envCfg "a@b" Purpose.base none none cfgA rfl).2
       (Err.thrown ("Unable to build an email of type " ++ purposeName Purpose.base)) rfl⟩⟩

end EmailJs
